import Mathlib

/-!
Shallow embedding of the SG-universal pagination connector and the Mongo
persistence layer, written from the repository sources:

* `src/unnamed/part_000` — `WordpressConnector` (page-number variant): a
  module-level `let concatenatedResponse = [], items;`, and a recursive
  `getPages(page, correlationId)` that GETs `...?page=<page>`, resolves the
  module array on a `null` body, and otherwise evaluates
  `concatenatedResponse.concat(items)` (discarding the result) before calling
  `self.getPages(page+1, ...)` without chaining the returned promise.
* `src/unnamed/part_001` — `WordpressConnector` (link-following variant): an
  instance field `this.results = []`, a recursive `loop(url)` that appends
  `_.values(r)` to `this.results` and, when `r._links.next` exists, spawns
  `self.loop(next)` inside a `Promise.try` whose callback neither returns nor
  awaits it, and a `getPages(correlationId)` that runs `loop` on a hardcoded
  seed URL inside a `new Promise` whose `resolve`/`reject` are never invoked.
* `src/unnamed/part_002` — `MongoStorePersistence.save`, a try/catch around
  findOne / replaceOne / insertOne.

Promises are modelled by their caller-observable settlement (`Outcome`);
the network is an explicit `fetch` environment; the detached recursions are
run out with fuel to expose the instance/module state they leave behind and
the sequence of HTTP requests they issue.
-/

namespace SGU

abbrev Item := String
abbrev Url := String

/-- Errors a `requestify.get` promise can reject with, plus the `CycleError`
kind the spec asks for (the source never constructs it). -/
inductive FetchErr
  | netErr
  | httpErr (status : Nat)
  | parseErr
  | cycleErr
deriving DecidableEq, Repr

/-- Caller-observable settlement of a connector promise.  `resolvedUndef`
records a promise that fulfils with `undefined` (a handler that returned
nothing); `pending` a promise that is never resolved nor rejected (within the
given fuel, for the fuel-bounded recursions). -/
inductive Outcome
  | resolved (v : List Item)
  | resolvedUndef
  | rejected (e : FetchErr)
  | pending
deriving DecidableEq, Repr

/-- HTTP method of a request; the connector only ever calls `requestify.get`. -/
inductive Method
  | GET
deriving DecidableEq, Repr

/-- Options passed to `requestify.get` at a call site. -/
structure ReqOptions where
  redirect : Bool
  timeout : Nat
deriving DecidableEq, Repr

/-- The literal options object both connector variants pass:
`{redirect: true, timeout: 120000}`. -/
def wpReqOptions : ReqOptions := { redirect := true, timeout := 120000 }

/-- One HTTP request issued by the connector. -/
structure Request where
  url : Url
  method : Method
  opts : ReqOptions
deriving DecidableEq, Repr

/-- The request `requestify.get(url, {redirect: true, timeout: 120000})`
issues (part_000 line 35 and part_001 line 34). -/
def wpRequest (u : Url) : Request := { url := u, method := .GET, opts := wpReqOptions }

/-! ## part_000 — page-number variant -/

/-- The URL built at part_000 line 31:
`config.wordpressUrl + '/' + config.wordpressApiPath + '?page=' + page`. -/
def url000 (wordpressUrl wordpressApiPath : String) (page : Nat) : Url :=
  wordpressUrl ++ "/" ++ wordpressApiPath ++ "?page=" ++ toString page

/-- Caller-observable outcome of `getPages(page, correlationId)` in part_000.
`fetch p` is the parsed body of the GET for page `p`: `.ok none` models a
`null` body, `.ok (some items)` a non-null body, `.error e` a rejected fetch.
`acc` is the module-level `concatenatedResponse` at call time.  On a `null`
body the code resolves with the module array; on a fetch error the `catch`
rejects with the original error; on a non-null body it evaluates
`concatenatedResponse.concat(items)` — the returned array is discarded, the
module variable is not reassigned — and calls `self.getPages(page+1, ...)`
without resolving, chaining or awaiting the promise that call returns, so the
caller's promise settles in no other case. -/
def getPages000 (fetch : Nat → Except FetchErr (Option (List Item)))
    (page : Nat) (correlationId : String) (acc : List Item) : Outcome :=
  let _ := correlationId
  match fetch page with
  | .error e => .rejected e
  | .ok none => .resolved acc
  | .ok (some items) =>
      let _discarded := acc ++ items
      .pending

/-- The module-level `concatenatedResponse` after the detached recursion of
part_000 has run for at most `fuel` pages: each non-null page evaluates
`concatenatedResponse.concat(items)` and never stores the result back, so the
accumulator is handed to the next page unchanged. -/
def traverse000 (fetch : Nat → Except FetchErr (Option (List Item))) :
    Nat → Nat → List Item → List Item
  | 0, _, acc => acc
  | fuel + 1, page, acc =>
      match fetch page with
      | .error _ => acc
      | .ok none => acc
      | .ok (some items) =>
          let _discarded := acc ++ items
          traverse000 fetch fuel (page + 1) acc

/-- The value handed to `resolve` by the innermost detached promise of the
part_000 recursion (line 43), when a `null` body is reached within `fuel`
pages; `none` if the recursion errors out or the fuel runs out first. -/
def innerResolve000 (fetch : Nat → Except FetchErr (Option (List Item))) :
    Nat → Nat → List Item → Option (List Item)
  | 0, _, _ => none
  | fuel + 1, page, acc =>
      match fetch page with
      | .error _ => none
      | .ok none => some acc
      | .ok (some items) =>
          let _discarded := acc ++ items
          innerResolve000 fetch fuel (page + 1) acc

/-- The HTTP requests the part_000 recursion issues within `fuel` pages:
one GET per page with `wpReqOptions`, stopping after an error or a `null`
body. -/
def requests000 (wordpressUrl wordpressApiPath : String)
    (fetch : Nat → Except FetchErr (Option (List Item))) :
    Nat → Nat → List Request
  | 0, _ => []
  | fuel + 1, page =>
      wpRequest (url000 wordpressUrl wordpressApiPath page) ::
        match fetch page with
        | .error _ => []
        | .ok none => []
        | .ok (some _) => requests000 wordpressUrl wordpressApiPath fetch fuel (page + 1)

/-! ## part_001 — link-following variant -/

/-- Parsed body of a page in part_001.  `vals` is the list `_.values(r)` of
the body's values (line 38 appends all of them, not an `items` field); `next`
is `r._links.next[0].href` when the body has a `_links.next` entry (line 41). -/
structure WPBody where
  vals : List Item
  next : Option Url
deriving DecidableEq, Repr

/-- `loop(url)` of part_001 over the fetch environment `fetch`, with the
instance field `this.results` threaded as `res`.  Returns the settlement of
the promise `loop` returns, the value of `this.results` after the whole
detached call tree has run (fuel-bounded), and the requests issued.

Faithful points: on a fetched body the code reassigns
`self.results = self.results.concat(_.values(r))`; when `r._links.next`
exists it runs `Promise.try(() => { self.loop(next); })` — the callback
neither returns nor awaits the child, so the parent's chain continues at once
through the logging `.then` handler, which returns nothing: the parent's
promise fulfils with `undefined` whatever the child later does, while the
child keeps running detached and mutating `this.results`.  Only a body with
no next-link resolves with `self.results`.  A rejected fetch rejects the
promise with the original error (no `catch` in `loop`). -/
def loop001 (fetch : Url → Except FetchErr WPBody) :
    Nat → Url → List Item → Outcome × List Item × List Request
  | 0, _, res => (.pending, res, [])
  | fuel + 1, url, res =>
      match fetch url with
      | .error e => (.rejected e, res, [wpRequest url])
      | .ok r =>
          let res2 := res ++ r.vals
          match r.next with
          | none => (.resolved res2, res2, [wpRequest url])
          | some nxt =>
              let child := loop001 fetch fuel nxt res2
              (.resolvedUndef, child.2.1, wpRequest url :: child.2.2)

/-- The seed URL hardcoded at part_001 line 72; `getPages` takes no URL
parameter from the caller. -/
def seedUrl001 : Url := "http://zuidas.publikaan.nl/wp-json/wp/v2/all?page=0"

/-- `getPages(correlationId)` of part_001: inside `new Promise((resolve,
reject) => ...)` it runs `self.loop(<hardcoded seed>)` and attaches a
logging `.then`, but `resolve` and `reject` are never invoked, so the promise
handed to the caller never settles; a rejection of `loop` is likewise
unhandled.  Returns that (pending) settlement together with the instance
`this.results` after the detached traversal and the requests issued. -/
def getPages001 (fetch : Url → Except FetchErr WPBody) (correlationId : String)
    (fuel : Nat) (results : List Item) : Outcome × List Item × List Request :=
  let _ := correlationId
  let t := loop001 fetch fuel seedUrl001 results
  (.pending, t.2.1, t.2.2)

/-! ## part_002 — MongoStorePersistence.save -/

/-- A stored document: an `_id` key and an opaque body. -/
structure Doc where
  _id : String
  body : String
deriving DecidableEq, Repr

/-- Errors the driver calls inside `save`'s try-block can throw. -/
inductive MongoErr
  | connErr
  | opErr
deriving DecidableEq, Repr

/-- The dynamically-typed value `save` puts in its `result` field: the
driver's operation result object on success, the literal boolean `false` on
the catch path. -/
inductive ResultVal
  | ack
  | boolFalse
deriving DecidableEq, Repr

/-- The `{ result, update }` object `save` returns. -/
structure SaveRet where
  result : ResultVal
  update : Bool
deriving DecidableEq, Repr

/-- Environment for one `save` call: the `page` collection's documents and
which driver steps throw. -/
structure MongoEnv where
  docs : List Doc
  getCollectionThrows : Bool
  findOneThrows : Bool
  replaceOneThrows : Bool
  insertOneThrows : Bool
deriving DecidableEq, Repr

/-- `collection.findOne({ _id: data._id })` over the collection contents
(part_002 line 38): the first document with the given `_id`, else `null`. -/
def mongoFindOne (docs : List Doc) (id : String) : Option Doc :=
  docs.find? (fun d => d._id = id)

/-- `collection.replaceOne({ _id: data._id }, data, { upsert: true })`
(part_002 line 42): replace the first document whose `_id` matches. -/
def mongoReplaceOne (docs : List Doc) (data : Doc) : List Doc :=
  match docs with
  | [] => [data]
  | d :: ds => if d._id = data._id then data :: ds else d :: mongoReplaceOne ds data

/-- `collection.insertOne(data)` (part_002 line 45). -/
def mongoInsertOne (docs : List Doc) (data : Doc) : List Doc :=
  docs ++ [data]

/-- The try-block of `MongoStorePersistence.save` (part_002 lines 36-48):
get the collection, `findOne` by `_id`; if a document exists set
`update = true` and `replaceOne` with upsert, else set `update = false` and
`insertOne`; return `{ result, update }`.  An `.error` is a thrown exception
escaping the try-block. -/
def saveTry (env : MongoEnv) (data : Doc) : Except MongoErr (SaveRet × List Doc) :=
  if env.getCollectionThrows then .error .connErr
  else if env.findOneThrows then .error .opErr
  else
    match mongoFindOne env.docs data._id with
    | some _ =>
        if env.replaceOneThrows then .error .opErr
        else .ok ({ result := .ack, update := true }, mongoReplaceOne env.docs data)
    | none =>
        if env.insertOneThrows then .error .opErr
        else .ok ({ result := .ack, update := false }, mongoInsertOne env.docs data)

/-- `MongoStorePersistence.save(data, dbName)` (part_002 lines 32-57): the
try-block above wrapped in the catch handler, which logs and returns
`{ result: false, update: false }`; the collection is left as it was when a
step throws.  The function always returns a value — the catch swallows every
exception. -/
def save (env : MongoEnv) (data : Doc) : SaveRet × List Doc :=
  match saveTry env data with
  | .ok r => r
  | .error _ => ({ result := .boolFalse, update := false }, env.docs)

/-! ## Concrete fetch environments used in the theorems -/

/-- Page source for part_000: page 0 has one item, every later page is the
`null` sentinel. -/
def fetchC1 : Nat → Except FetchErr (Option (List Item))
  | 0 => .ok (some ["a"])
  | _ => .ok none

/-- Page source for part_000: page 0 has one item, every later fetch fails. -/
def fetchC6 : Nat → Except FetchErr (Option (List Item))
  | 0 => .ok (some ["a"])
  | _ => .error .netErr

/-- Link-following source where every page's next-link is the URL `u` — in
particular the page fetched at `u` links back to itself. -/
def cycleFetch : Url → Except FetchErr WPBody :=
  fun _ => .ok { vals := ["x"], next := some "u" }

/-- Link-following source: a single page at `a` with one item and no next. -/
def fetchA : Url → Except FetchErr WPBody :=
  fun u => if u = "a" then .ok { vals := ["itemA"], next := none } else .error .netErr

/-- Link-following source: a single page at `b` with one item and no next. -/
def fetchB : Url → Except FetchErr WPBody :=
  fun u => if u = "b" then .ok { vals := ["itemB"], next := none } else .error .netErr

/-- Link-following source: `p1` links to `p2`, `p2` is the last page. -/
def fetchC5 : Url → Except FetchErr WPBody :=
  fun u =>
    if u = "p1" then .ok { vals := ["a"], next := some "p2" }
    else if u = "p2" then .ok { vals := ["b"], next := none }
    else .error .netErr

/-- Link-following source: every URL yields one item and no next-link. -/
def fetchOnePage : Url → Except FetchErr WPBody :=
  fun _ => .ok { vals := ["c"], next := none }

/-- Link-following source where every fetch fails. -/
def fetchFail : Url → Except FetchErr WPBody :=
  fun _ => .error .netErr

/-! ## Claim theorems -/

/-- C1: the claim that the connector's result has length equal to the sum of
the visited pages' item counts, with the concatenation stored back, fails on
part_000: over a source whose page 0 holds one item and whose page 1 is the
`null` sentinel, the caller's promise never resolves at all, the detached
recursion's `resolve` receives the empty list (length 0, not 1), and the
module accumulator is still empty after the traversal — line 48 computes
`concatenatedResponse.concat(items)` and discards it. -/
theorem c1_concat_discarded :
    getPages000 fetchC1 0 "cid" [] = .pending ∧
    innerResolve000 fetchC1 2 0 [] = some [] ∧
    traverse000 fetchC1 2 0 [] = [] :=
  ⟨rfl, rfl, rfl⟩

/-- C2: the claim that the facade resolves with the completed result set on a
terminal state fails on part_001: `getPages(correlationId)` never invokes the
`resolve`/`reject` of the promise it returns, so its outcome is `pending` for
every fetch environment, fuel and prior state; moreover the traversal's first
request always targets the hardcoded `seedUrl001`, not a caller-supplied
URL (the method has no URL parameter). -/
theorem c2_facade_never_settles (fetch : Url → Except FetchErr WPBody)
    (correlationId : String) (fuel : Nat) (results : List Item) :
    (getPages001 fetch correlationId fuel results).1 = .pending ∧
    (getPages001 fetch correlationId (fuel + 1) results).2.2.head? =
      some (wpRequest seedUrl001) := by
  constructor
  · rfl
  · cases hf : fetch seedUrl001 with
    | error e => simp [getPages001, loop001, hf]
    | ok r =>
        cases hn : r.next with
        | none => simp [getPages001, loop001, hf, hn]
        | some nxt => simp [getPages001, loop001, hf, hn]

/-- C3: the claim that a next-link equal to an already-visited URL (here, the
page's own requesting URL) makes the connector reject with `CycleError`
before any further fetch fails on part_001: the code keeps no visited set, so
with two units of fuel it issues a second request to the same URL `u`, and
its promise is never rejected with `CycleError` for any fuel or prior
state — it fulfils with `undefined` as soon as the detached child is
spawned. -/
theorem c3_no_cycle_detection :
    (loop001 cycleFetch 2 "u" []).2.2 = [wpRequest "u", wpRequest "u"] ∧
    ∀ (fuel : Nat) (res : List Item),
      (loop001 cycleFetch fuel "u" res).1 ≠ Outcome.rejected .cycleErr := by
  refine ⟨by decide, ?_⟩
  intro fuel res
  cases fuel with
  | zero => simp [loop001]
  | succ n => simp [loop001, cycleFetch]

/-- C4: the claim that no accumulator state is carried over between
invocations fails: part_001 keeps one `this.results` per connector instance,
so a second `loop` invocation on the same instance (state threaded through)
resolves with the first invocation's item even though the two sources are
disjoint; and part_000's `getPages` resolves with whatever the module-level
`concatenatedResponse` holds at call time rather than with a freshly
constructed accumulator. -/
theorem c4_shared_accumulator :
    (loop001 fetchA 1 "a" []).1 = .resolved ["itemA"] ∧
    (loop001 fetchB 1 "b" (loop001 fetchA 1 "a" []).2.1).1 =
      .resolved ["itemA", "itemB"] ∧
    ∀ m : List Item, getPages000 (fun _ => .ok none) 0 "cid" m = .resolved m := by
  refine ⟨by decide, by decide, fun m => rfl⟩

/-- C5: the claim that the traversal settles exactly when a fetched page has
no next-link fails in both directions: part_001's `loop` promise fulfils
(with `undefined`) as soon as it spawns the detached child, although page
`p1`'s body carries a next-link; and part_000's caller promise stays pending
forever on a source whose first page is non-null, although the traversal
reaches its sentinel on page 1. -/
theorem c5_done_mismatch :
    (loop001 fetchC5 2 "p1" []).1 = .resolvedUndef ∧
    fetchC5 "p1" = .ok { vals := ["a"], next := some "p2" } ∧
    getPages000 fetchC1 0 "cid" [] = .pending ∧ fetchC1 1 = .ok none := by
  refine ⟨by decide, rfl, rfl, rfl⟩

/-- C6: the claim that every fetch error rejects the facade's result with the
original error fails: in part_001 a failing seed fetch rejects the inner
`loop` promise, but `getPages` never invokes `reject`, so the promise handed
to the caller stays pending and the error is swallowed; in part_000 an error
on page 1 rejects only the detached inner promise — the caller's promise
stays pending and the inner `resolve` is never reached. -/
theorem c6_errors_swallowed :
    (getPages001 fetchFail "cid" 1 []).1 = .pending ∧
    (loop001 fetchFail 1 seedUrl001 []).1 = .rejected .netErr ∧
    getPages000 fetchC6 0 "cid" [] = .pending ∧
    innerResolve000 fetchC6 2 0 [] = none := by
  refine ⟨rfl, by decide, rfl, rfl⟩

/-- C7: an empty seed response completes the traversal successfully with an
empty result set: in part_000 a `null` first body resolves the caller's
promise with the (initially empty) module accumulator, and in part_001 a seed
body with no values and no next-link resolves the `loop` promise with the
empty results list. -/
theorem c7_empty_seed (fetch0 : Nat → Except FetchErr (Option (List Item)))
    (fetch1 : Url → Except FetchErr WPBody) (u : Url) (cid : String) (fuel : Nat)
    (h0 : fetch0 0 = .ok none) (h1 : fetch1 u = .ok { vals := [], next := none }) :
    getPages000 fetch0 0 cid [] = .resolved [] ∧
    (loop001 fetch1 (fuel + 1) u []).1 = .resolved [] := by
  constructor
  · simp [getPages000, h0]
  · simp [loop001, h1]

/-- Closed instance of the C7 theorem on concrete sources. -/
theorem c7_empty_seed_witness :
    getPages000 (fun _ => .ok none) 0 "cid" [] = .resolved [] ∧
    (loop001 (fun _ => .ok { vals := [], next := none }) 1 "s" []).1 = .resolved [] :=
  c7_empty_seed (fun _ => .ok none) (fun _ => .ok { vals := [], next := none })
    "s" "cid" 0 rfl rfl

/-- Every request in a part_001 traversal trace is a `wpRequest`. -/
theorem loop001_trace_shape (fetch : Url → Except FetchErr WPBody) :
    ∀ (fuel : Nat) (u : Url) (res : List Item) (req : Request),
      req ∈ (loop001 fetch fuel u res).2.2 → ∃ v, req = wpRequest v := by
  intro fuel
  induction fuel with
  | zero => intro u res req h; simp [loop001] at h
  | succ n ih =>
      intro u res req h
      cases hf : fetch u with
      | error e =>
          simp [loop001, hf] at h
          exact ⟨u, h⟩
      | ok r =>
          cases hn : r.next with
          | none =>
              simp [loop001, hf, hn] at h
              exact ⟨u, h⟩
          | some nxt =>
              simp [loop001, hf, hn] at h
              rcases h with h | h
              · exact ⟨u, h⟩
              · exact ih nxt (res ++ r.vals) req h

/-- Every request in a part_000 traversal trace is a `wpRequest`. -/
theorem requests000_shape (base path : String)
    (fetch : Nat → Except FetchErr (Option (List Item))) :
    ∀ (fuel page : Nat) (req : Request),
      req ∈ requests000 base path fetch fuel page → ∃ v, req = wpRequest v := by
  intro fuel
  induction fuel with
  | zero => intro page req h; simp [requests000] at h
  | succ n ih =>
      intro page req h
      cases hf : fetch page with
      | error e =>
          simp [requests000, hf] at h
          exact ⟨url000 base path page, h⟩
      | ok r =>
          cases r with
          | none =>
              simp [requests000, hf] at h
              exact ⟨url000 base path page, h⟩
          | some items =>
              simp [requests000, hf] at h
              rcases h with h | h
              · exact ⟨url000 base path page, h⟩
              · exact ih (page + 1) req h

/-- C8: every HTTP request either connector variant issues is a single GET
with `{redirect: true, timeout: 120000}` — redirect-following enabled and a
120 000 ms timeout, as at part_000 lines 35-37 and part_001 line 34. -/
theorem c8_get_with_options (fetch1 : Url → Except FetchErr WPBody)
    (fuel : Nat) (u : Url) (res : List Item) (req : Request)
    (base path : String) (fetch0 : Nat → Except FetchErr (Option (List Item)))
    (fuel0 page : Nat) (req0 : Request)
    (h1 : req ∈ (loop001 fetch1 fuel u res).2.2)
    (h0 : req0 ∈ requests000 base path fetch0 fuel0 page) :
    (req.method = .GET ∧ req.opts.redirect = true ∧ req.opts.timeout = 120000) ∧
    (req0.method = .GET ∧ req0.opts.redirect = true ∧ req0.opts.timeout = 120000) := by
  obtain ⟨v, rfl⟩ := loop001_trace_shape fetch1 fuel u res req h1
  obtain ⟨w, rfl⟩ := requests000_shape base path fetch0 fuel0 page req0 h0
  exact ⟨⟨rfl, rfl, rfl⟩, ⟨rfl, rfl, rfl⟩⟩

/-- Closed instance of the C8 theorem on concrete traversals. -/
theorem c8_get_with_options_witness :
    ((wpRequest "s").method = .GET ∧ (wpRequest "s").opts.redirect = true ∧
      (wpRequest "s").opts.timeout = 120000) ∧
    ((wpRequest (url000 "b" "p" 0)).method = .GET ∧
      (wpRequest (url000 "b" "p" 0)).opts.redirect = true ∧
      (wpRequest (url000 "b" "p" 0)).opts.timeout = 120000) :=
  c8_get_with_options fetchOnePage 1 "s" [] (wpRequest "s")
    "b" "p" (fun _ => .ok none) 1 0 (wpRequest (url000 "b" "p" 0))
    (by decide) (by decide)

/-- C9: `MongoStorePersistence.save` never throws to its caller: whenever the
try-block throws, `save` returns `{ result: false, update: false }` and
leaves the collection as it was, and whenever the try-block succeeds, `save`
returns exactly the try-block's `{ result, update }` value and collection. -/
theorem c9_save_never_throws (env : MongoEnv) (data : Doc) :
    (∀ e : MongoErr, saveTry env data = .error e →
        save env data = ({ result := .boolFalse, update := false }, env.docs)) ∧
    (∀ r : SaveRet × List Doc, saveTry env data = .ok r → save env data = r) := by
  constructor
  · intro e h; simp [save, h]
  · intro r h; simp [save, h]

/-- Closed instance of the C9 theorem: a throwing `getCollection` yields the
catch value, and a successful insert yields the try-block value. -/
theorem c9_save_never_throws_witness :
    save { docs := [], getCollectionThrows := true, findOneThrows := false,
           replaceOneThrows := false, insertOneThrows := false }
        { _id := "k", body := "v" } =
      ({ result := .boolFalse, update := false }, []) ∧
    save { docs := [], getCollectionThrows := false, findOneThrows := false,
           replaceOneThrows := false, insertOneThrows := false }
        { _id := "k", body := "v" } =
      ({ result := .ack, update := false }, [{ _id := "k", body := "v" }]) := by
  constructor
  · exact (c9_save_never_throws _ _).1 .connErr rfl
  · exact (c9_save_never_throws _ _).2 _ rfl

/-- C10: on a successful `save` (no driver step throws), the returned
`update` flag is true exactly when a document with the same `_id` already
existed, in which case the final collection is the `replaceOne` result,
otherwise it is the `insertOne` result. -/
theorem c10_update_iff_exists (env : MongoEnv) (data : Doc)
    (hc : env.getCollectionThrows = false) (hf : env.findOneThrows = false)
    (hr : env.replaceOneThrows = false) (hi : env.insertOneThrows = false) :
    ((save env data).1.update = true ↔ ∃ d ∈ env.docs, d._id = data._id) ∧
    (save env data).2 =
      (if (∃ d ∈ env.docs, d._id = data._id) then mongoReplaceOne env.docs data
       else mongoInsertOne env.docs data) := by
  classical
  have hmem : (mongoFindOne env.docs data._id).isSome ↔ ∃ d ∈ env.docs, d._id = data._id := by
    simp [mongoFindOne, List.find?_isSome]
  cases hfind : mongoFindOne env.docs data._id with
  | none =>
      have hex : ¬ ∃ d ∈ env.docs, d._id = data._id := by
        rw [← hmem, hfind]; simp
      constructor
      · simp [save, saveTry, hc, hf, hr, hi, hfind, hex]
      · simp [save, saveTry, hc, hf, hr, hi, hfind, hex]
  | some d =>
      have hex : ∃ d ∈ env.docs, d._id = data._id := by
        rw [← hmem, hfind]; simp
      constructor
      · simp [save, saveTry, hc, hf, hr, hi, hfind, hex]
      · simp [save, saveTry, hc, hf, hr, hi, hfind, hex]

/-- Closed instance of the C10 theorem: saving over a collection that already
holds the `_id` reports an update and replaces; over an empty collection it
inserts. -/
theorem c10_update_iff_exists_witness :
    ((save { docs := [{ _id := "k", body := "old" }], getCollectionThrows := false,
             findOneThrows := false, replaceOneThrows := false,
             insertOneThrows := false }
        { _id := "k", body := "new" }).1.update = true ↔
      ∃ d ∈ [Doc.mk "k" "old"], d._id = "k") := by
  exact (c10_update_iff_exists _ _ rfl rfl rfl rfl).1

end SGU
